import Mathlib

/-! # Screenshot relay (`server.js`): allow-list, credential gate, page shell, render

A shallow embedding of the request handlers of `src/server.js`.

* JavaScript strings are Lean `String`s and `undefined` is `none`; a string is
  falsy exactly when it is empty, so `!x` on a string is `x == ""` and
  `x || d` is `jsOr x d`.
* The services of the runtime that the handlers call but do not define
  (the `URL` constructor, `Buffer.from(_, 'base64').toString()`) are the
  fields of a `Platform`; the browser-automation engine is an `Engine`
  giving the outcome of each call: it returns, or it throws a value, which
  may be `null` or `undefined`. Theorems quantify over all of them.
* A handler returns the final state of `res` together with the browser
  calls it made, in order. Of the response headers only those that the
  handlers set themselves are recorded, not the ones the framework adds when
  `send` is called.
-/

namespace Proxy

/-! ## JavaScript values -/

/-- The expression `x || d` for a possibly-undefined string `x` and a string `d`. -/
def jsOr (x : Option String) (d : String) : String :=
  match x with
  | none => d
  | some s => if s == "" then d else s

/-- The method `Array.prototype.includes` on an array of strings. -/
def includes (xs : List String) (x : String) : Bool :=
  xs.any (fun y => y == x)

/-! ## Runtime services -/

/-- The accessors of a parsed `URL` object. -/
structure URL where
  protocol : String
  hostname : String
  port : String
  pathname : String
  search : String
  hash : String
  deriving DecidableEq, Repr

/-- Runtime services used by the handlers. `parseURL s` is `new URL(s)`,
`none` when the constructor throws; `base64Decode t` is
`Buffer.from(t, 'base64').toString()`. -/
structure Platform where
  parseURL : String → Option URL
  base64Decode : String → String

/-! ## Configuration (`server.js` lines 10-17) -/

/-- The constant `ALLOWED_HOSTS`. -/
def ALLOWED_HOSTS : List String :=
  ["your-site.example", "localhost"]

/-- The variables of `process.env` that the server reads. -/
structure Env where
  BASIC_USER : Option String
  BASIC_PASS : Option String

/-- The constant `BASIC_AUTH_USER = process.env.BASIC_USER || ''`. -/
def BASIC_AUTH_USER (env : Env) : String := jsOr env.BASIC_USER ""

/-- The constant `BASIC_AUTH_PASS = process.env.BASIC_PASS || ''`. -/
def BASIC_AUTH_PASS (env : Env) : String := jsOr env.BASIC_PASS ""

/-! ## Allow-list validator (`server.js` lines 20-27) -/

/-- The function `isAllowedTarget`: parse, then look the hostname up in the
allow-list; a parse failure is caught and gives `false`. -/
def isAllowedTarget (P : Platform) (targetUrl : String) : Bool :=
  match P.parseURL targetUrl with
  | some u => includes ALLOWED_HOSTS u.hostname
  | none => false

/-! ## Requests and responses -/

/-- The parts of an incoming request that the handlers read:
`req.headers.authorization`, `req.query.target` and `req.query.url`
(`none` is `undefined`). -/
structure Request where
  authorization : Option String
  target : Option String
  url : Option String

/-- A response body handed to `res.send`: a string or a byte buffer. -/
inductive Body where
  | text (s : String)
  | buffer (bytes : List Nat)
  deriving DecidableEq, Repr

/-- The state of the response object `res`: status code, the headers set by
the handler, and the body once `send` has been called. -/
structure Res where
  statusCode : Nat
  headers : List (String × String)
  body : Option Body
  deriving DecidableEq, Repr

/-- The response object as a handler receives it: status 200, nothing set, nothing sent. -/
def Res.fresh : Res := ⟨200, [], none⟩

/-- The call `res.setHeader(name, value)` (also `res.set`): replaces an earlier value of the header. -/
def Res.setHeader (res : Res) (name value : String) : Res :=
  { res with headers := res.headers.filter (fun h => !(h.1 == name)) ++ [(name, value)] }

/-- The call `res.status(code)`. -/
def Res.status (res : Res) (code : Nat) : Res :=
  { res with statusCode := code }

/-- The call `res.send(body)`. -/
def Res.send (res : Res) (b : Body) : Res :=
  { res with body := some b }

/-- The value of a response header, if the handler set it. -/
def Res.header (res : Res) (name : String) : Option String :=
  (res.headers.find? (fun h => h.1 == name)).map (fun h => h.2)

/-! ## Credential gate (`server.js` lines 30-43) -/

/-- The class `LineTerminator` of ECMAScript, which `.` does not match. -/
def isLineTerminator (c : Char) : Bool :=
  c.toNat == 0x0A || c.toNat == 0x0D || c.toNat == 0x2028 || c.toNat == 0x2029

/-- The class `\s` of ECMAScript regular expressions: white space and line terminators. -/
def isWhiteSpace (c : Char) : Bool :=
  c.toNat == 0x09 || c.toNat == 0x0B || c.toNat == 0x0C || c.toNat == 0x20 ||
  c.toNat == 0xA0 || c.toNat == 0x1680 || (0x2000 ≤ c.toNat && c.toNat ≤ 0x200A) ||
  c.toNat == 0x202F || c.toNat == 0x205F || c.toNat == 0x3000 || c.toNat == 0xFEFF ||
  isLineTerminator c

/-- The tail `(.+)$` of the pattern tried at one position: the whole rest of the
input, when it is non-empty and holds no line terminator. -/
def dotPlusEnd (cs : List Char) : Option (List Char) :=
  if !cs.isEmpty && cs.all (fun c => !isLineTerminator c) then some cs else none

/-- The tail `\s*(.+)$`: the greedy star first takes one more white-space
character and backtracks to `(.+)$` at the current position when that fails. -/
def starThenGroup : List Char → Option (List Char)
  | [] => dotPlusEnd []
  | c :: cs =>
    if isWhiteSpace c then
      match starThenGroup cs with
      | some g => some g
      | none => dotPlusEnd (c :: cs)
    else dotPlusEnd (c :: cs)

/-- The tail `\s+(.+)$`: one white-space character, then `\s*(.+)$`. -/
def plusThenGroup : List Char → Option (List Char)
  | [] => none
  | c :: cs => if isWhiteSpace c then starThenGroup cs else none

/-- The call `auth.match(/^Basic\s+(.+)$/)`: `none` when there is no match,
otherwise capture group 1. -/
def matchBasic (auth : String) : Option String :=
  match auth.data with
  | 'B' :: 'a' :: 's' :: 'i' :: 'c' :: rest => (plusThenGroup rest).map String.mk
  | _ => none

/-- Splitting a character list at every occurrence of a separator character. -/
def splitChars (sep : Char) : List Char → List (List Char)
  | [] => [[]]
  | c :: cs =>
    if c = sep then [] :: splitChars sep cs
    else
      match splitChars sep cs with
      | [] => [[c]]
      | x :: xs => (c :: x) :: xs

/-- The call `s.split(':')`. -/
def split (s : String) : List String :=
  (splitChars ':' s.data).map String.mk

/-- What the middleware does with a request: call `next()`, or answer it. -/
inductive Gate where
  | next
  | respond (res : Res)
  deriving DecidableEq, Repr

/-- The middleware `basicAuth`. -/
def basicAuth (P : Platform) (env : Env) (req : Request) : Gate :=
  if BASIC_AUTH_USER env == "" then .next
  else
    match req.authorization with
    | none =>
      .respond (((Res.fresh.setHeader "WWW-Authenticate" "Basic realm=\"Restricted\"").status 401).send
        (.text "Authentication required"))
    | some auth =>
      if auth == "" then
        .respond (((Res.fresh.setHeader "WWW-Authenticate" "Basic realm=\"Restricted\"").status 401).send
          (.text "Authentication required"))
      else
        match matchBasic auth with
        | none => .respond ((Res.fresh.status 401).send (.text "Authentication required"))
        | some token =>
          let creds := split (P.base64Decode token)
          if creds[0]? == some (BASIC_AUTH_USER env) && creds[1]? == some (BASIC_AUTH_PASS env) then .next
          else
            .respond (((Res.fresh.setHeader "WWW-Authenticate" "Basic realm=\"Restricted\"").status 401).send
              (.text "Invalid credentials"))

/-! ## Page composer and `GET /` (`server.js` lines 46-92) -/

/-- The characters that `encodeURIComponent` leaves as they are:
ASCII letters, digits and `- _ . ! ~ * ' ( )`. -/
def isUriUnreserved (c : Char) : Bool :=
  c.isAlphanum || "-_.!~*()".data.contains c || c.toNat == 0x27

/-- An upper-case hexadecimal digit. -/
def hexDigit (n : Nat) : Char :=
  if n < 10 then Char.ofNat (48 + n) else Char.ofNat (55 + n)

/-- The UTF-8 encoding of a character, as a list of bytes. -/
def utf8Bytes (c : Char) : List Nat :=
  let n := c.toNat
  if n < 0x80 then [n]
  else if n < 0x800 then [0xC0 + n / 64, 0x80 + n % 64]
  else if n < 0x10000 then [0xE0 + n / 4096, 0x80 + n / 64 % 64, 0x80 + n % 64]
  else [0xF0 + n / 262144, 0x80 + n / 4096 % 64, 0x80 + n / 64 % 64, 0x80 + n % 64]

/-- The escape `%XX` of one byte. -/
def percentByte (b : Nat) : List Char :=
  ['%', hexDigit (b / 16), hexDigit (b % 16)]

/-- The encoding of one character by `encodeURIComponent`. -/
def encodeChar (c : Char) : List Char :=
  if isUriUnreserved c then [c] else (utf8Bytes c).flatMap percentByte

/-- The built-in `encodeURIComponent` on a well-formed string. -/
def encodeURIComponent (s : String) : String :=
  String.mk (s.data.flatMap encodeChar)

/-- The template literal of `res.send` (lines 52-91) up to `${encoded}`. -/
def pageHead : String :=
  "<!doctype html>\n" ++
  "  <html>\n" ++
  "    <head>\n" ++
  "      <meta charset=\"utf-8\"/>\n" ++
  "      <title>Embedded Viewer</title>\n" ++
  "      <style>\n" ++
  "        body\x7bfont-family:Arial,sans-serif;margin:0;display:flex;flex-direction:column;height:100vh;\x7d\n" ++
  "        header\x7bbackground:\x230b5cff;color:\x23fff;padding:10px;display:flex;align-items:center;gap:8px;\x7d\n" ++
  "        \x23controls\x7bmargin-left:auto;\x7d\n" ++
  "        .btn\x7bpadding:8px 10px;border-radius:6px;border:none;background:\x23fff;color:\x230b5cff;cursor:pointer;\x7d\n" ++
  "        \x23viewport\x7bflex:1;display:flex;align-items:center;justify-content:center;background:\x23222;\x7d\n" ++
  "        img\x7bmax-width:100%;max-height:100%;\x7d\n" ++
  "      </style>\n" ++
  "    </head>\n" ++
  "    <body>\n" ++
  "      <header>\n" ++
  "        <div>Embedded Viewer</div>\n" ++
  "        <div id=\"controls\">\n" ++
  "          <button class=\"btn\" id=\"back\">Back</button>\n" ++
  "          <button class=\"btn\" id=\"forward\">Forward</button>\n" ++
  "          <button class=\"btn\" id=\"refresh\">Refresh</button>\n" ++
  "          <button class=\"btn\" id=\"open\">Open in new tab</button>\n" ++
  "        </div>\n" ++
  "      </header>\n" ++
  "      <div id=\"viewport\">\n" ++
  "        <img id=\"shot\" src=\"/screenshot?url="

/-- The template literal between `${Date.now()}` and `${target}`. -/
def pageMid : String :=
  "\" alt=\"screenshot\"/>\n" ++
  "      </div>\n" ++
  "      <script>\n" ++
  "        const target = \""

/-- The template literal after `${target}`. -/
def pageTail : String :=
  "\";\n" ++
  "        const shot = document.getElementById(\x27shot\x27);\n" ++
  "        document.getElementById(\x27refresh\x27).addEventListener(\x27click\x27, ()=> \x7b\n" ++
  "          shot.src = \x27/screenshot?url=\x27 + encodeURIComponent(target) + \x27&_t=\x27 + Date.now();\n" ++
  "        \x7d);\n" ++
  "        document.getElementById(\x27open\x27).addEventListener(\x27click\x27, ()=> window.open(target,\x27_blank\x27,\x27noopener\x27));\n" ++
  "        // Back and forward not implemented for screenshot proxy\n" ++
  "        document.getElementById(\x27back\x27).addEventListener(\x27click\x27, ()=> alert(\x27Back not implemented.\x27));\n" ++
  "        document.getElementById(\x27forward\x27).addEventListener(\x27click\x27, ()=> alert(\x27Forward not implemented.\x27));\n" ++
  "      </script>\n" ++
  "    </body>\n" ++
  "  </html>"

/-- The page sent by `GET /`: the template literal with `encoded`, `Date.now()`
and `target` substituted. -/
def page (encoded : String) (now : Nat) (target : String) : String :=
  pageHead ++ encoded ++ "&_t=" ++ toString now ++ pageMid ++ target ++ pageTail

/-! ## Browser engine -/

/-- The options object passed to `puppeteer.launch`. -/
structure LaunchOptions where
  args : List String
  headless : String
  deriving DecidableEq, Repr

/-- The options object passed to `page.setViewport`. -/
structure Viewport where
  width : Nat
  height : Nat
  deriving DecidableEq, Repr

/-- The options object passed to `page.goto`. -/
structure GotoOptions where
  waitUntil : String
  timeout : Nat
  deriving DecidableEq, Repr

/-- The options object passed to `page.screenshot`. -/
structure ScreenshotOptions where
  fullPage : Bool
  type : String
  deriving DecidableEq, Repr

/-- A call made to the browser engine. -/
inductive Call where
  | launch (o : LaunchOptions)
  | newPage
  | setViewport (v : Viewport)
  | goto (url : String) (o : GotoOptions)
  | screenshot (o : ScreenshotOptions)
  | close
  deriving DecidableEq, Repr

/-- A value thrown by an engine call (the reason of a rejected promise).
`nullish` is `null` or `undefined`, on which reading a property raises a
`TypeError`. `value message` is any other value, with `message` the value of
its `message` property when that is truthy (`none` when it is absent or
falsy). -/
inductive Thrown where
  | nullish
  | value (message : Option String)
  deriving DecidableEq, Repr

/-- The outcome of each engine call of one request: it returns or it throws. -/
structure Engine where
  launch : LaunchOptions → Except Thrown Unit
  newPage : Except Thrown Unit
  setViewport : Viewport → Except Thrown Unit
  goto : String → GotoOptions → Except Thrown Unit
  screenshot : ScreenshotOptions → Except Thrown (List Nat)
  close : Except Thrown Unit

/-- An argument of `console.error`: a string, or a thrown value itself. -/
inductive LogArg where
  | str (s : String)
  | thrown (e : Thrown)
  deriving DecidableEq, Repr

/-- An error that leaves the handler: the `TypeError` raised inside `catch`
by reading `message` of `null` or `undefined`, or a value thrown by
`browser.close()` inside `finally`. -/
inductive Escaped where
  | typeError
  | thrown (e : Thrown)
  deriving DecidableEq, Repr

/-- What a route did with a request: the final state of the response (`body`
is `none` when nothing was sent), the engine calls in order, the lines written
with `console.error`, and the error that escaped the handler, if any. -/
structure Exchange where
  res : Res
  calls : List Call
  log : List (String × LogArg)
  escaped : Option Escaped
  deriving DecidableEq, Repr

/-- The handler of `GET /`; `now` is the value of `Date.now()`, an integer
number of milliseconds, which the template prints in decimal. -/
def rootHandler (P : Platform) (req : Request) (now : Nat) : Exchange :=
  let target := jsOr req.target "https://your-site.example/"
  if !isAllowedTarget P target then
    ⟨(Res.fresh.status 400).send (.text "Target not allowed. Update ALLOWED_HOSTS."), [], [], none⟩
  else
    let encoded := encodeURIComponent target
    ⟨Res.fresh.send (.text (page encoded now target)), [], [], none⟩

/-- The route `app.get('/', basicAuth, ...)`. -/
def getRoot (P : Platform) (env : Env) (req : Request) (now : Nat) : Exchange :=
  match basicAuth P env req with
  | .next => rootHandler P req now
  | .respond res => ⟨res, [], [], none⟩

/-! ## `GET /screenshot` (`server.js` lines 95-120) -/

/-- The argument of `puppeteer.launch`. -/
def launchOptions : LaunchOptions :=
  ⟨["--no-sandbox", "--disable-setuid-sandbox", "--disable-dev-shm-usage"], "new"⟩

/-- The argument of `page.setViewport`. -/
def viewport : Viewport := ⟨1280, 800⟩

/-- The second argument of `page.goto`. -/
def gotoOptions : GotoOptions := ⟨"networkidle2", 15000⟩

/-- The argument of `page.screenshot`. -/
def screenshotOptions : ScreenshotOptions := ⟨false, "png"⟩

/-- The engine calls of the `try` block, up to the first one that throws:
the calls made, whether `browser` was assigned, and the captured buffer or
the thrown value. -/
def renderSteps (E : Engine) (target : String) : List Call × Bool × Except Thrown (List Nat) :=
  match E.launch launchOptions with
  | .error e => ([.launch launchOptions], false, .error e)
  | .ok _ =>
    match E.newPage with
    | .error e => ([.launch launchOptions, .newPage], true, .error e)
    | .ok _ =>
      match E.setViewport viewport with
      | .error e => ([.launch launchOptions, .newPage, .setViewport viewport], true, .error e)
      | .ok _ =>
        match E.goto target gotoOptions with
        | .error e =>
          ([.launch launchOptions, .newPage, .setViewport viewport, .goto target gotoOptions],
            true, .error e)
        | .ok _ =>
          match E.screenshot screenshotOptions with
          | .error e =>
            ([.launch launchOptions, .newPage, .setViewport viewport, .goto target gotoOptions,
              .screenshot screenshotOptions], true, .error e)
          | .ok buffer =>
            ([.launch launchOptions, .newPage, .setViewport viewport, .goto target gotoOptions,
              .screenshot screenshotOptions], true, .ok buffer)

/-- The argument `err.message || err` of `console.error`; `none` when
evaluating it raises a `TypeError`, which is the case for `null` and
`undefined`. -/
def logArg (err : Thrown) : Option LogArg :=
  match err with
  | .nullish => none
  | .value none => some (.thrown err)
  | .value (some m) => if m == "" then some (.thrown err) else some (.str m)

/-- The rest of the `try` block after the engine calls, or the `catch` block:
the state of the response, the lines logged, and whether `catch` itself
raised. When `err.message` raises on line 115, `console.error` is not called
and line 116 is not reached, so nothing is logged and nothing is sent. -/
def sendOrCatch (outcome : Except Thrown (List Nat)) : Res × List (String × LogArg) × Bool :=
  match outcome with
  | .ok buffer =>
    (((Res.fresh.setHeader "Content-Type" "image/png").setHeader "Cache-Control" "no-store").send
      (.buffer buffer), [], false)
  | .error err =>
    match logArg err with
    | none => (Res.fresh, [], true)
    | some arg =>
      ((Res.fresh.status 500).send (.text "Failed to capture screenshot"),
        [("Screenshot error:", arg)], false)

/-- The error that leaves the handler after the `finally` block: what
`browser.close()` threw when it was called and threw, otherwise the
`TypeError` of the `catch` block when that raised. -/
def finallyEscaped (E : Engine) (browser raised : Bool) : Option Escaped :=
  if browser then
    match E.close with
    | .error e => some (.thrown e)
    | .ok _ => if raised then some .typeError else none
  else if raised then some .typeError else none

/-- The handler of `GET /screenshot`: the `try` block, then `catch` when a
step threw, then `finally`, which closes the browser when one was assigned. -/
def screenshotHandler (P : Platform) (E : Engine) (req : Request) : Exchange :=
  match req.url with
  | none => ⟨(Res.fresh.status 400).send (.text "Invalid or disallowed target"), [], [], none⟩
  | some target =>
    if target == "" || !isAllowedTarget P target then
      ⟨(Res.fresh.status 400).send (.text "Invalid or disallowed target"), [], [], none⟩
    else
      let (calls, browser, outcome) := renderSteps E target
      let (res, log, raised) := sendOrCatch outcome
      ⟨res, if browser then calls ++ [.close] else calls, log, finallyEscaped E browser raised⟩

/-- The route `app.get('/screenshot', basicAuth, ...)`. -/
def getScreenshot (P : Platform) (env : Env) (E : Engine) (req : Request) : Exchange :=
  match basicAuth P env req with
  | .next => screenshotHandler P E req
  | .respond res => ⟨res, [], [], none⟩

/-! ## Extent of a string literal in the generated script -/

/-- The characters of a double-quoted ECMAScript string literal after its
opening quote, and the source text that follows the closing quote.
`escaped` says that the previous character was an unescaped backslash, which
takes the next character with it; otherwise the first double quote closes the
literal, and a line break or the end of input leaves it unterminated. -/
def scanLiteralBody (escaped : Bool) : List Char → Option (List Char × List Char)
  | [] => none
  | c :: rest =>
    if escaped then (scanLiteralBody false rest).map (fun r => (c :: r.1, r.2))
    else if c.toNat == 34 then some ([], rest)
    else if c.toNat == 10 || c.toNat == 13 then none
    else (scanLiteralBody (c.toNat == 92) rest).map (fun r => (c :: r.1, r.2))

/-- The string literal that starts at the head of a piece of script text:
its characters and the text after it. -/
def scanStringLiteral : List Char → Option (List Char × List Char)
  | [] => none
  | c :: rest => if c.toNat == 34 then scanLiteralBody false rest else none

/-! ## A reference platform

A small URL parser and base64 decoder, used to instantiate `Platform` at
concrete requests. The parser covers URLs of the shape
`scheme://host[:port][/path][?query][#fragment]` without credentials, and
lower-cases scheme and host without normalising the other components; the
decoder covers the standard alphabet with ASCII payloads. -/

/-- Characters allowed in a URL scheme after its first letter. -/
def isSchemeChar (c : Char) : Bool :=
  c.isAlphanum || c == '+' || c == '-' || c == '.'

/-- Characters that end the authority component. -/
def endsAuthority (c : Char) : Bool :=
  c == '/' || c == '?' || c.toNat == 35

/-- Characters accepted in a host name by the reference parser. -/
def isHostChar (c : Char) : Bool :=
  c.isAlphanum || c == '-' || c == '.' || c == '_'

/-- The reference URL parser: `none` stands for a thrown `TypeError`. -/
def refParseURL (s : String) : Option URL :=
  let cs := s.data
  let scheme := cs.takeWhile isSchemeChar
  match cs.dropWhile isSchemeChar with
  | ':' :: '/' :: '/' :: rest =>
    let authority := rest.takeWhile (fun c => !endsAuthority c)
    let afterAuthority := rest.dropWhile (fun c => !endsAuthority c)
    let host := authority.takeWhile (fun c => c != ':')
    let port := (authority.dropWhile (fun c => c != ':')).drop 1
    let path := afterAuthority.takeWhile (fun c => c != '?' && c.toNat != 35)
    let afterPath := afterAuthority.dropWhile (fun c => c != '?' && c.toNat != 35)
    if (scheme.head?.map Char.isAlpha) == some true && !host.isEmpty && host.all isHostChar
        && port.all Char.isDigit then
      some
        { protocol := String.mk (scheme.map Char.toLower ++ [':'])
          hostname := String.mk (host.map Char.toLower)
          port := String.mk port
          pathname := if path.isEmpty then "/" else String.mk path
          search := String.mk (afterPath.takeWhile (fun c => c.toNat != 35))
          hash := String.mk (afterPath.dropWhile (fun c => c.toNat != 35)) }
    else none
  | _ => none

/-- The value of a character of the standard base64 alphabet. -/
def base64Value (c : Char) : Option Nat :=
  if c.isUpper then some (c.toNat - 65)
  else if c.isLower then some (c.toNat - 97 + 26)
  else if c.isDigit then some (c.toNat - 48 + 52)
  else if c == '+' then some 62
  else if c == '/' then some 63
  else none

/-- The bytes encoded by a list of 6-bit values. -/
def base64Bytes : List Nat → List Nat
  | a :: b :: c :: d :: rest =>
    (a * 4 + b / 16) :: (b % 16 * 16 + c / 4) :: (c % 4 * 64 + d) :: base64Bytes rest
  | [a, b, c] => [a * 4 + b / 16, b % 16 * 16 + c / 4]
  | [a, b] => [a * 4 + b / 16]
  | _ => []

/-- The reference base64 decoder: the token up to its padding, decoded to
bytes and read as ASCII characters. -/
def refBase64Decode (token : String) : String :=
  String.mk ((base64Bytes ((token.data.takeWhile (fun c => c != '=')).filterMap base64Value)).map
    Char.ofNat)

/-- The reference platform. -/
def refPlatform : Platform := ⟨refParseURL, refBase64Decode⟩

/-- An engine on which every call returns; the capture is `buffer`. -/
def okEngine (buffer : List Nat) : Engine :=
  ⟨fun _ => .ok (), .ok (), fun _ => .ok (), fun _ _ => .ok (), fun _ => .ok buffer, .ok ()⟩

/-- An engine whose navigation throws `err`; the other calls return. -/
def gotoFailsEngine (err : Thrown) : Engine :=
  ⟨fun _ => .ok (), .ok (), fun _ => .ok (), fun _ _ => .error err, fun _ => .ok [], .ok ()⟩

/-! ## Theorems: allow-list validator -/

theorem includes_allowed_hosts (h : String) :
    includes ALLOWED_HOSTS h = true ↔ h = "your-site.example" ∨ h = "localhost" := by
  simp only [includes, ALLOWED_HOSTS, List.any_cons, List.any_nil, Bool.or_false, Bool.or_eq_true,
    beq_iff_eq]
  constructor
  · rintro (h1 | h1)
    · exact Or.inl h1.symm
    · exact Or.inr h1.symm
  · rintro (h1 | h1)
    · exact Or.inl h1.symm
    · exact Or.inr h1.symm

theorem allow_list_is_exact :
    includes ALLOWED_HOSTS "localhost" = true ∧ includes ALLOWED_HOSTS "your-site.example" = true ∧
    includes ALLOWED_HOSTS "LOCALHOST" = false ∧ includes ALLOWED_HOSTS "sub.localhost" = false ∧
    includes ALLOWED_HOSTS "localhost.evil.example" = false ∧
    includes ALLOWED_HOSTS "www.your-site.example" = false := by
  decide

theorem isAllowedTarget_of_parse (P : Platform) (s : String) (u : URL)
    (hu : P.parseURL s = some u) (hh : u.hostname = "your-site.example" ∨ u.hostname = "localhost") :
    isAllowedTarget P s = true := by
  simp only [isAllowedTarget, hu]
  exact (includes_allowed_hosts u.hostname).2 hh

/-- C1: `isAllowedTarget s` is true exactly when `s` parses as a URL whose
hostname equals `your-site.example` or `localhost` as a string; so it is false
when `s` does not parse, and when `s` parses nothing but the hostname
(not scheme, port, path or query) decides the result. -/
theorem isAllowedTarget_iff (P : Platform) (s : String) :
    (isAllowedTarget P s = true ↔
      ∃ u, P.parseURL s = some u ∧ (u.hostname = "your-site.example" ∨ u.hostname = "localhost")) ∧
    (isAllowedTarget P s = false ↔
      P.parseURL s = none ∨
        ∃ u, P.parseURL s = some u ∧ u.hostname ≠ "your-site.example" ∧ u.hostname ≠ "localhost") := by
  cases hp : P.parseURL s with
  | none => simp [isAllowedTarget, hp]
  | some u =>
    have key := includes_allowed_hosts u.hostname
    constructor
    · simp only [isAllowedTarget, hp, key, Option.some.injEq, exists_eq_left']
    · simp only [isAllowedTarget, hp, Option.some.injEq, exists_eq_left', false_or, reduceCtorEq]
      rw [← Bool.not_eq_true, key, not_or]

/-! ## Theorems: shape of the screenshot handler -/

theorem sendOrCatch_res_cases (outcome : Except Thrown (List Nat)) :
    (sendOrCatch outcome).1 = ⟨500, [], some (.text "Failed to capture screenshot")⟩ ∨
    (sendOrCatch outcome).1 = ⟨200, [], none⟩ ∨
    ∃ buffer, (sendOrCatch outcome).1 =
      ⟨200, [("Content-Type", "image/png"), ("Cache-Control", "no-store")], some (.buffer buffer)⟩ := by
  cases outcome with
  | ok buffer =>
    right; right
    exact ⟨buffer, by simp [sendOrCatch, Res.fresh, Res.send, Res.setHeader]⟩
  | error err =>
    cases h : logArg err with
    | none =>
      right; left
      simp [sendOrCatch, h, Res.fresh]
    | some arg =>
      left
      simp [sendOrCatch, h, Res.fresh, Res.status, Res.send]

theorem screenshotHandler_accepted (P : Platform) (E : Engine) (req : Request) (target : String)
    (hu : req.url = some target) (hne : target ≠ "") (ha : isAllowedTarget P target = true) :
    screenshotHandler P E req =
      ⟨(sendOrCatch (renderSteps E target).2.2).1,
       if (renderSteps E target).2.1 then (renderSteps E target).1 ++ [.close]
        else (renderSteps E target).1,
       (sendOrCatch (renderSteps E target).2.2).2.1,
       finallyEscaped E (renderSteps E target).2.1 (sendOrCatch (renderSteps E target).2.2).2.2⟩ := by
  have hb : (target == "") = false := by simpa using hne
  simp only [screenshotHandler, hu, ha, hb, Bool.not_true, Bool.or_false, Bool.false_eq_true,
    ↓reduceIte]

theorem screenshotHandler_res_cases (P : Platform) (E : Engine) (req : Request) :
    (screenshotHandler P E req).res = ⟨400, [], some (.text "Invalid or disallowed target")⟩ ∨
    (screenshotHandler P E req).res = ⟨500, [], some (.text "Failed to capture screenshot")⟩ ∨
    (screenshotHandler P E req).res = ⟨200, [], none⟩ ∨
    ∃ buffer, (screenshotHandler P E req).res =
      ⟨200, [("Content-Type", "image/png"), ("Cache-Control", "no-store")], some (.buffer buffer)⟩ := by
  unfold screenshotHandler
  split
  · left; rfl
  · split
    · left; rfl
    · right
      exact sendOrCatch_res_cases _

/-! ## Theorems: credential gate -/

theorem basicAuth_user_empty (env : Env) (h : env.BASIC_USER = none ∨ env.BASIC_USER = some "") :
    BASIC_AUTH_USER env = "" := by
  rcases h with h | h <;> simp [BASIC_AUTH_USER, jsOr, h]

/-- C3: when `BASIC_USER` is unset or empty, whatever `BASIC_PASS` and the
`Authorization` header are, `basicAuth` calls `next()`; neither route then
answers 401 or sets `WWW-Authenticate`. -/
theorem basicAuth_disabled (P : Platform) (env : Env) (E : Engine) (req : Request) (now : Nat)
    (h : env.BASIC_USER = none ∨ env.BASIC_USER = some "") :
    basicAuth P env req = Gate.next ∧
    (getRoot P env req now).res.statusCode ≠ 401 ∧
    (getRoot P env req now).res.header "WWW-Authenticate" = none ∧
    (getScreenshot P env E req).res.statusCode ≠ 401 ∧
    (getScreenshot P env E req).res.header "WWW-Authenticate" = none := by
  have hnext : basicAuth P env req = Gate.next := by
    simp [basicAuth, basicAuth_user_empty env h]
  refine ⟨hnext, ?_, ?_, ?_, ?_⟩
  · simp only [getRoot, hnext, rootHandler]
    split <;> simp [Res.fresh, Res.status, Res.send]
  · simp only [getRoot, hnext, rootHandler]
    split <;> simp [Res.fresh, Res.status, Res.send, Res.header]
  · rw [getScreenshot, hnext]
    rcases screenshotHandler_res_cases P E req with h1 | h1 | h1 | ⟨buf, h1⟩ <;> simp [h1]
  · rw [getScreenshot, hnext]
    rcases screenshotHandler_res_cases P E req with h1 | h1 | h1 | ⟨buf, h1⟩ <;>
      simp [h1, Res.header]

/-! ## Theorems: render delegate -/

theorem renderSteps_ok (E : Engine) (target : String) (buffer : List Nat)
    (h1 : E.launch launchOptions = .ok ()) (h2 : E.newPage = .ok ())
    (h3 : E.setViewport viewport = .ok ()) (h4 : E.goto target gotoOptions = .ok ())
    (h5 : E.screenshot screenshotOptions = .ok buffer) :
    renderSteps E target =
      ([.launch launchOptions, .newPage, .setViewport viewport, .goto target gotoOptions,
        .screenshot screenshotOptions], true, .ok buffer) := by
  simp only [renderSteps, h1, h2, h3, h4, h5]

theorem renderSteps_launched (E : Engine) (target : String)
    (h1 : E.launch launchOptions = .ok ()) :
    (renderSteps E target).2.1 = true ∧ Call.close ∉ (renderSteps E target).1 := by
  simp only [renderSteps, h1]
  cases E.newPage <;> cases E.setViewport viewport <;> cases E.goto target gotoOptions <;>
    cases E.screenshot screenshotOptions <;> simp

theorem renderSteps_not_launched (E : Engine) (target : String) (e : Thrown)
    (h1 : E.launch launchOptions = .error e) :
    renderSteps E target = ([.launch launchOptions], false, .error e) := by
  simp only [renderSteps, h1]

theorem renderSteps_first_throw (E : Engine) (target : String) (e : Thrown)
    (hfail : E.launch launchOptions = .error e ∨
      (E.launch launchOptions = .ok () ∧ E.newPage = .error e) ∨
      (E.launch launchOptions = .ok () ∧ E.newPage = .ok () ∧
        E.setViewport viewport = .error e) ∨
      (E.launch launchOptions = .ok () ∧ E.newPage = .ok () ∧
        E.setViewport viewport = .ok () ∧ E.goto target gotoOptions = .error e) ∨
      (E.launch launchOptions = .ok () ∧ E.newPage = .ok () ∧
        E.setViewport viewport = .ok () ∧ E.goto target gotoOptions = .ok () ∧
        E.screenshot screenshotOptions = .error e)) :
    (renderSteps E target).2.2 = .error e := by
  rcases hfail with h1 | ⟨h1, h2⟩ | ⟨h1, h2, h3⟩ | ⟨h1, h2, h3, h4⟩ | ⟨h1, h2, h3, h4, h5⟩
  · simp only [renderSteps, h1]
  · simp only [renderSteps, h1, h2]
  · simp only [renderSteps, h1, h2, h3]
  · simp only [renderSteps, h1, h2, h3, h4]
  · simp only [renderSteps, h1, h2, h3, h4, h5]

theorem sendOrCatch_value (message : Option String) :
    (sendOrCatch (.error (.value message))).1 =
      ⟨500, [], some (.text "Failed to capture screenshot")⟩ := by
  cases message with
  | none => rfl
  | some m =>
    cases hb : m == "" <;> simp only [sendOrCatch, logArg, hb, Bool.false_eq_true, ↓reduceIte] <;>
      rfl

theorem sendOrCatch_nullish :
    sendOrCatch (.error .nullish) = (⟨200, [], none⟩, [], true) := by
  rfl

/-- C6: for a request to `GET /screenshot` that passes the gate with an
allowed target, if the first of launch, page open, viewport set, navigation
and capture that throws, throws a value `e` other than `null` or `undefined`,
the response is status 500 with the body `Failed to capture screenshot` and no
header set by the handler, the same for every such `e`; the log receives the
message of `e` when it has a non-empty one and `e` itself otherwise. -/
theorem screenshot_failure_is_generic (P : Platform) (env : Env) (E : Engine) (req : Request)
    (target : String) (e : Thrown) (hgate : basicAuth P env req = Gate.next)
    (hu : req.url = some target) (hne : target ≠ "") (ha : isAllowedTarget P target = true)
    (hfail : E.launch launchOptions = .error e ∨
      (E.launch launchOptions = .ok () ∧ E.newPage = .error e) ∨
      (E.launch launchOptions = .ok () ∧ E.newPage = .ok () ∧
        E.setViewport viewport = .error e) ∨
      (E.launch launchOptions = .ok () ∧ E.newPage = .ok () ∧
        E.setViewport viewport = .ok () ∧ E.goto target gotoOptions = .error e) ∨
      (E.launch launchOptions = .ok () ∧ E.newPage = .ok () ∧
        E.setViewport viewport = .ok () ∧ E.goto target gotoOptions = .ok () ∧
        E.screenshot screenshotOptions = .error e))
    (hval : e ≠ Thrown.nullish) :
    (getScreenshot P env E req).res = ⟨500, [], some (.text "Failed to capture screenshot")⟩ ∧
    (∀ m, e = Thrown.value (some m) → m ≠ "" →
      (getScreenshot P env E req).log = [("Screenshot error:", LogArg.str m)]) ∧
    (e = Thrown.value none ∨ e = Thrown.value (some "") →
      (getScreenshot P env E req).log = [("Screenshot error:", LogArg.thrown e)]) := by
  have he := renderSteps_first_throw E target e hfail
  rw [getScreenshot, hgate, screenshotHandler_accepted P E req target hu hne ha]
  simp only [he]
  refine ⟨?_, ?_, ?_⟩
  · cases e with
    | nullish => exact absurd rfl hval
    | value message => exact sendOrCatch_value message
  · intro m hm hmne
    have hb : (m == "") = false := by simpa using hmne
    simp only [hm, sendOrCatch, logArg, hb, Bool.false_eq_true, ↓reduceIte]
  · rintro (hm | hm)
    · simp only [hm, sendOrCatch, logArg]
    · simp only [hm, sendOrCatch, logArg, beq_self_eq_true, ↓reduceIte]

theorem screenshot_nullish_throw (P : Platform) (env : Env) (E : Engine) (req : Request)
    (target : String) (hgate : basicAuth P env req = Gate.next)
    (hu : req.url = some target) (hne : target ≠ "") (ha : isAllowedTarget P target = true)
    (hfail : E.launch launchOptions = .error .nullish ∨
      (E.launch launchOptions = .ok () ∧ E.newPage = .error .nullish) ∨
      (E.launch launchOptions = .ok () ∧ E.newPage = .ok () ∧
        E.setViewport viewport = .error .nullish) ∨
      (E.launch launchOptions = .ok () ∧ E.newPage = .ok () ∧
        E.setViewport viewport = .ok () ∧ E.goto target gotoOptions = .error .nullish) ∨
      (E.launch launchOptions = .ok () ∧ E.newPage = .ok () ∧
        E.setViewport viewport = .ok () ∧ E.goto target gotoOptions = .ok () ∧
        E.screenshot screenshotOptions = .error .nullish)) :
    (getScreenshot P env E req).res = ⟨200, [], none⟩ ∧
    (getScreenshot P env E req).log = [] ∧
    (getScreenshot P env E req).escaped ≠ none := by
  have he := renderSteps_first_throw E target .nullish hfail
  rw [getScreenshot, hgate, screenshotHandler_accepted P E req target hu hne ha]
  simp only [he, sendOrCatch_nullish]
  refine ⟨trivial, trivial, ?_⟩
  simp only [finallyEscaped]
  cases (renderSteps E target).2.1 <;> cases E.close <;> simp

/-- C7: for a request to `GET /screenshot` that passes the gate with an
allowed target, when the launch returned the handler calls `close` exactly
once, as its last engine call, whatever the later calls do; the response is
then 200 when every call returned, and 500 when a later call threw a value
other than `null` or `undefined`. When the launch threw, the launch is the
only engine call and `close` is not called. -/
theorem browser_closed_exactly_once (P : Platform) (env : Env) (E : Engine) (req : Request)
    (target : String) (hgate : basicAuth P env req = Gate.next) (hu : req.url = some target)
    (hne : target ≠ "") (ha : isAllowedTarget P target = true) :
    (E.launch launchOptions = .ok () →
      (getScreenshot P env E req).calls.count Call.close = 1 ∧
      (getScreenshot P env E req).calls.getLast? = some Call.close) ∧
    (∀ buffer, E.launch launchOptions = .ok () → E.newPage = .ok () →
      E.setViewport viewport = .ok () → E.goto target gotoOptions = .ok () →
      E.screenshot screenshotOptions = .ok buffer →
      (getScreenshot P env E req).res.statusCode = 200) ∧
    (∀ e, E.launch launchOptions = .ok () →
      (E.newPage = .error e ∨
        (E.newPage = .ok () ∧ E.setViewport viewport = .error e) ∨
        (E.newPage = .ok () ∧ E.setViewport viewport = .ok () ∧
          E.goto target gotoOptions = .error e) ∨
        (E.newPage = .ok () ∧ E.setViewport viewport = .ok () ∧
          E.goto target gotoOptions = .ok () ∧ E.screenshot screenshotOptions = .error e)) →
      e ≠ Thrown.nullish →
      (getScreenshot P env E req).res.statusCode = 500) ∧
    (∀ e, E.launch launchOptions = .error e →
      (getScreenshot P env E req).calls = [.launch launchOptions] ∧
      Call.close ∉ (getScreenshot P env E req).calls) := by
  rw [getScreenshot, hgate, screenshotHandler_accepted P E req target hu hne ha]
  refine ⟨?_, ?_, ?_, ?_⟩
  · intro h1
    obtain ⟨hb, hc⟩ := renderSteps_launched E target h1
    simp only [hb, if_true]
    refine ⟨?_, ?_⟩
    · rw [List.count_append, List.count_eq_zero_of_not_mem hc]
      rfl
    · simp
  · intro buffer h1 h2 h3 h4 h5
    rw [renderSteps_ok E target buffer h1 h2 h3 h4 h5]
    simp [sendOrCatch, Res.fresh, Res.send, Res.setHeader]
  · intro e h1 hlater hval
    have hfail : E.launch launchOptions = .error e ∨
        (E.launch launchOptions = .ok () ∧ E.newPage = .error e) ∨
        (E.launch launchOptions = .ok () ∧ E.newPage = .ok () ∧
          E.setViewport viewport = .error e) ∨
        (E.launch launchOptions = .ok () ∧ E.newPage = .ok () ∧
          E.setViewport viewport = .ok () ∧ E.goto target gotoOptions = .error e) ∨
        (E.launch launchOptions = .ok () ∧ E.newPage = .ok () ∧
          E.setViewport viewport = .ok () ∧ E.goto target gotoOptions = .ok () ∧
          E.screenshot screenshotOptions = .error e) := by
      rcases hlater with h | ⟨h2, h⟩ | ⟨h2, h3, h⟩ | ⟨h2, h3, h4, h⟩
      · exact Or.inr (Or.inl ⟨h1, h⟩)
      · exact Or.inr (Or.inr (Or.inl ⟨h1, h2, h⟩))
      · exact Or.inr (Or.inr (Or.inr (Or.inl ⟨h1, h2, h3, h⟩)))
      · exact Or.inr (Or.inr (Or.inr (Or.inr ⟨h1, h2, h3, h4, h⟩)))
    simp only [renderSteps_first_throw E target e hfail]
    cases e with
    | nullish => exact absurd rfl hval
    | value message => rw [sendOrCatch_value message]
  · intro e h1
    rw [renderSteps_not_launched E target e h1]
    simp

/-- C8: for a request to `GET /screenshot` that passes the gate with an
allowed target, when every engine call returns, the response is status 200
with `Content-Type: image/png`, `Cache-Control: no-store` and the captured
buffer as body, and the engine calls were: launch, new page, viewport
1280x800, navigation to the target with `networkidle2` and a 15000 ms
timeout, a PNG capture with `fullPage: false`, close. -/
theorem screenshot_success (P : Platform) (env : Env) (E : Engine) (req : Request)
    (target : String) (buffer : List Nat) (hgate : basicAuth P env req = Gate.next)
    (hu : req.url = some target) (hne : target ≠ "") (ha : isAllowedTarget P target = true)
    (h1 : E.launch launchOptions = .ok ()) (h2 : E.newPage = .ok ())
    (h3 : E.setViewport ⟨1280, 800⟩ = .ok ())
    (h4 : E.goto target ⟨"networkidle2", 15000⟩ = .ok ())
    (h5 : E.screenshot ⟨false, "png"⟩ = .ok buffer) :
    (getScreenshot P env E req).res =
      ⟨200, [("Content-Type", "image/png"), ("Cache-Control", "no-store")],
        some (.buffer buffer)⟩ ∧
    (getScreenshot P env E req).calls =
      [.launch ⟨["--no-sandbox", "--disable-setuid-sandbox", "--disable-dev-shm-usage"], "new"⟩,
        .newPage, .setViewport ⟨1280, 800⟩, .goto target ⟨"networkidle2", 15000⟩,
        .screenshot ⟨false, "png"⟩, .close] := by
  rw [getScreenshot, hgate, screenshotHandler_accepted P E req target hu hne ha,
    renderSteps_ok E target buffer h1 h2 h3 h4 h5]
  constructor
  · simp [sendOrCatch, Res.fresh, Res.send, Res.setHeader]
  · rfl

/-- Witness for `screenshot_failure_is_generic`: navigation to an allowed
target throws a timeout error. -/
theorem screenshot_failure_is_generic_witness :
    isAllowedTarget refPlatform "https://localhost/" = true ∧
    (getScreenshot refPlatform ⟨none, none⟩
        (gotoFailsEngine (.value (some "Navigation timeout of 15000 ms exceeded")))
        ⟨none, none, some "https://localhost/"⟩).res =
      ⟨500, [], some (.text "Failed to capture screenshot")⟩ :=
  ⟨by decide,
    (screenshot_failure_is_generic refPlatform ⟨none, none⟩
      (gotoFailsEngine (.value (some "Navigation timeout of 15000 ms exceeded")))
      ⟨none, none, some "https://localhost/"⟩ "https://localhost/"
      (.value (some "Navigation timeout of 15000 ms exceeded")) (by decide) rfl (by decide)
      (by decide) (Or.inr (Or.inr (Or.inr (Or.inl ⟨rfl, rfl, rfl, rfl⟩)))) (by decide)).1⟩

/-- Witness for `browser_closed_exactly_once`: a failed navigation is followed by one `close`. -/
theorem browser_closed_exactly_once_witness :
    (getScreenshot refPlatform ⟨none, none⟩ (gotoFailsEngine (.value none))
        ⟨none, none, some "https://localhost/"⟩).calls.count Call.close = 1 ∧
    (getScreenshot refPlatform ⟨none, none⟩ (gotoFailsEngine (.value none))
        ⟨none, none, some "https://localhost/"⟩).calls.getLast? = some Call.close :=
  (browser_closed_exactly_once refPlatform ⟨none, none⟩ (gotoFailsEngine (.value none))
    ⟨none, none, some "https://localhost/"⟩ "https://localhost/" (by decide) rfl (by decide)
    (by decide)).1 rfl

/-- Witness for `screenshot_success`: every engine call returns on an allowed target. -/
theorem screenshot_success_witness :
    (getScreenshot refPlatform ⟨none, none⟩ (okEngine [137, 80, 78, 71])
        ⟨none, none, some "https://localhost/"⟩).res =
      ⟨200, [("Content-Type", "image/png"), ("Cache-Control", "no-store")],
        some (.buffer [137, 80, 78, 71])⟩ :=
  (screenshot_success refPlatform ⟨none, none⟩ (okEngine [137, 80, 78, 71])
    ⟨none, none, some "https://localhost/"⟩ "https://localhost/" [137, 80, 78, 71] (by decide) rfl
    (by decide) (by decide) rfl rfl rfl rfl rfl).1

/-- Witness for `basicAuth_disabled`: no user name, a password and a header are present. -/
theorem basicAuth_disabled_witness :
    basicAuth refPlatform ⟨none, some "pw"⟩ ⟨some "Basic YWRtaW46c2VjcmV0", none, none⟩ = Gate.next :=
  (basicAuth_disabled refPlatform ⟨none, some "pw"⟩ (okEngine [])
    ⟨some "Basic YWRtaW46c2VjcmV0", none, none⟩ 0 (Or.inl rfl)).1

/-! ## Theorems: credential gate with a configured user -/

theorem basicAuth_respond_401 (P : Platform) (env : Env) (req : Request) (res : Res)
    (h : basicAuth P env req = Gate.respond res) : res.statusCode = 401 := by
  unfold basicAuth at h
  split at h
  · cases h
  · split at h
    · cases h; rfl
    · split at h
      · cases h; rfl
      · split at h
        · cases h; rfl
        · simp only at h
          split at h
          · cases h
          · cases h; rfl

theorem basicAuth_next_iff (P : Platform) (env : Env) (req : Request)
    (huser : BASIC_AUTH_USER env ≠ "") :
    basicAuth P env req = Gate.next ↔
      ∃ auth token, req.authorization = some auth ∧ auth ≠ "" ∧ matchBasic auth = some token ∧
        (split (P.base64Decode token))[0]? = some (BASIC_AUTH_USER env) ∧
        (split (P.base64Decode token))[1]? = some (BASIC_AUTH_PASS env) := by
  have h1 : (BASIC_AUTH_USER env == "") = false := by simpa using huser
  constructor
  · intro h
    cases hauth : req.authorization with
    | none => simp [basicAuth, h1, hauth] at h
    | some auth =>
      cases hb : auth == "" with
      | true => simp [basicAuth, h1, hauth, hb] at h
      | false =>
        cases hm : matchBasic auth with
        | none => simp [basicAuth, h1, hauth, hb, hm] at h
        | some token =>
          simp only [basicAuth, h1, hauth, hb, hm, Bool.false_eq_true, ↓reduceIte] at h
          split at h
          · rename_i hc
            simp only [Bool.and_eq_true, beq_iff_eq] at hc
            exact ⟨auth, token, rfl, by simpa using hb, hm, hc.1, hc.2⟩
          · cases h
  · rintro ⟨auth, token, hauth, hne, hm, h0, h1'⟩
    have hb : (auth == "") = false := by simpa using hne
    simp [basicAuth, h1, hauth, hb, hm, h0, h1']

theorem basicAuth_missing_challenge (P : Platform) (env : Env) (req : Request)
    (huser : BASIC_AUTH_USER env ≠ "")
    (hauth : req.authorization = none ∨ req.authorization = some "") :
    basicAuth P env req =
      Gate.respond ⟨401, [("WWW-Authenticate", "Basic realm=\"Restricted\"")],
        some (.text "Authentication required")⟩ := by
  have h1 : (BASIC_AUTH_USER env == "") = false := by simpa using huser
  rcases hauth with h | h <;> simp only [basicAuth, h1, h, Bool.false_eq_true, ↓reduceIte] <;> rfl

theorem basicAuth_mismatch_challenge (P : Platform) (env : Env) (req : Request)
    (auth token : String) (huser : BASIC_AUTH_USER env ≠ "")
    (hauth : req.authorization = some auth) (hm : matchBasic auth = some token)
    (hrej : basicAuth P env req ≠ Gate.next) :
    basicAuth P env req =
      Gate.respond ⟨401, [("WWW-Authenticate", "Basic realm=\"Restricted\"")],
        some (.text "Invalid credentials")⟩ := by
  have h1 : (BASIC_AUTH_USER env == "") = false := by simpa using huser
  have hne : (auth == "") = false := by
    cases hb : auth == "" with
    | false => rfl
    | true =>
      have : auth = "" := by simpa using hb
      rw [this, show matchBasic "" = none by decide] at hm
      cases hm
  revert hrej
  simp only [basicAuth, h1, hauth, hne, hm, Bool.false_eq_true, ↓reduceIte]
  split
  · intro h
    exact absurd rfl h
  · intro _
    rfl

/-- C5 (malformed header): with a user configured, a non-empty `Authorization`
header that does not match `/^Basic\s+(.+)$/` is answered 401 with the body
`Authentication required` and with no `WWW-Authenticate` header. -/
theorem basicAuth_malformed_no_challenge (P : Platform) (env : Env) (req : Request)
    (auth : String) (huser : BASIC_AUTH_USER env ≠ "") (hauth : req.authorization = some auth)
    (hne : auth ≠ "") (hm : matchBasic auth = none) :
    basicAuth P env req = Gate.respond ⟨401, [], some (.text "Authentication required")⟩ ∧
    (Res.mk 401 [] (some (.text "Authentication required"))).header "WWW-Authenticate" = none := by
  have h1 : (BASIC_AUTH_USER env == "") = false := by simpa using huser
  have h2 : (auth == "") = false := by simpa using hne
  refine ⟨?_, rfl⟩
  simp only [basicAuth, h1, hauth, h2, hm, Bool.false_eq_true, ↓reduceIte]
  rfl

/-- Witness for `basicAuth_malformed_no_challenge`: user `admin`, header `Bearer abc`. -/
theorem basicAuth_malformed_no_challenge_witness :
    basicAuth refPlatform ⟨some "admin", some "secret"⟩ ⟨some "Bearer abc", none, none⟩ =
      Gate.respond ⟨401, [], some (.text "Authentication required")⟩ :=
  (basicAuth_malformed_no_challenge refPlatform ⟨some "admin", some "secret"⟩
    ⟨some "Bearer abc", none, none⟩ "Bearer abc" (by decide) rfl (by decide) (by decide)).1

/-- C4 (fields cut at every colon): with user `admin` and password `a:b`, the
header `Basic YWRtaW46YTpi`, whose token decodes to `admin:a:b`, is answered
401; with password `secret`, the header `Basic YWRtaW46c2VjcmV0Ong=`, whose
token decodes to `admin:secret:x`, is let through. -/
theorem basicAuth_cuts_at_every_colon (P : Platform)
    (h1 : P.base64Decode "YWRtaW46YTpi" = "admin:a:b")
    (h2 : P.base64Decode "YWRtaW46c2VjcmV0Ong=" = "admin:secret:x") :
    basicAuth P ⟨some "admin", some "a:b"⟩ ⟨some "Basic YWRtaW46YTpi", none, none⟩ =
      Gate.respond ⟨401, [("WWW-Authenticate", "Basic realm=\"Restricted\"")],
        some (.text "Invalid credentials")⟩ ∧
    basicAuth P ⟨some "admin", some "secret"⟩ ⟨some "Basic YWRtaW46c2VjcmV0Ong=", none, none⟩ =
      Gate.next := by
  have m1 : matchBasic "Basic YWRtaW46YTpi" = some "YWRtaW46YTpi" := by decide
  have m2 : matchBasic "Basic YWRtaW46c2VjcmV0Ong=" = some "YWRtaW46c2VjcmV0Ong=" := by decide
  constructor
  · simp only [basicAuth, m1, h1]
    decide
  · simp only [basicAuth, m2, h2]
    decide

/-- Witness for `basicAuth_cuts_at_every_colon` on the reference decoder. -/
theorem basicAuth_cuts_at_every_colon_witness :
    refBase64Decode "YWRtaW46YTpi" = "admin:a:b" ∧
    basicAuth refPlatform ⟨some "admin", some "a:b"⟩ ⟨some "Basic YWRtaW46YTpi", none, none⟩ =
      Gate.respond ⟨401, [("WWW-Authenticate", "Basic realm=\"Restricted\"")],
        some (.text "Invalid credentials")⟩ :=
  ⟨by decide, (basicAuth_cuts_at_every_colon refPlatform (by decide) (by decide)).1⟩

/-! ## Theorems: target validation on both routes -/

theorem rootHandler_calls (P : Platform) (req : Request) (now : Nat) :
    (rootHandler P req now).calls = [] := by
  simp only [rootHandler]
  split <;> rfl

theorem rootHandler_rejected (P : Platform) (req : Request) (now : Nat)
    (h : isAllowedTarget P (jsOr req.target "https://your-site.example/") = false) :
    (rootHandler P req now).res =
      ⟨400, [], some (.text "Target not allowed. Update ALLOWED_HOSTS.")⟩ := by
  simp only [rootHandler, h, Bool.not_false, ↓reduceIte]
  rfl

theorem rootHandler_accepted (P : Platform) (req : Request) (now : Nat)
    (h : isAllowedTarget P (jsOr req.target "https://your-site.example/") = true) :
    (rootHandler P req now).res =
      ⟨200, [], some (.text (page
        (encodeURIComponent (jsOr req.target "https://your-site.example/")) now
        (jsOr req.target "https://your-site.example/")))⟩ := by
  simp only [rootHandler, h, Bool.not_true, Bool.false_eq_true, ↓reduceIte]
  rfl

theorem screenshotHandler_rejected (P : Platform) (E : Engine) (req : Request)
    (h : req.url = none ∨ ∃ t, req.url = some t ∧ (t = "" ∨ isAllowedTarget P t = false)) :
    screenshotHandler P E req =
      ⟨⟨400, [], some (.text "Invalid or disallowed target")⟩, [], [], none⟩ := by
  rcases h with h | ⟨t, h, ht | ht⟩
  · simp only [screenshotHandler, h]
    rfl
  · simp only [screenshotHandler, h, ht, beq_self_eq_true, Bool.true_or, ↓reduceIte]
    rfl
  · simp only [screenshotHandler, h, ht, Bool.not_false, Bool.or_true, ↓reduceIte]
    rfl

theorem renderSteps_goto (E : Engine) (target : String) (u : String) (o : GotoOptions)
    (h : Call.goto u o ∈ (renderSteps E target).1) : u = target := by
  revert h
  unfold renderSteps
  cases E.launch launchOptions <;> cases E.newPage <;> cases E.setViewport viewport <;>
    cases E.goto target gotoOptions <;> cases E.screenshot screenshotOptions <;>
    simp <;> intro h _ <;> exact h

/-- C2 (amended): for a request that passes the gate, `GET /` answers 400 when
its effective target (the `target` parameter when present and non-empty,
otherwise the default URL) is rejected by `isAllowedTarget`, and never calls
the engine; `GET /screenshot` answers 400 and makes no engine call when the
`url` parameter is missing or rejected; and whenever `GET /screenshot` makes
an engine call, `url` is a target that `isAllowedTarget` accepted and every
navigation goes to it. -/
theorem rejected_target_gets_400 (P : Platform) (env : Env) (E : Engine) (req : Request)
    (now : Nat) (hgate : basicAuth P env req = Gate.next) :
    (isAllowedTarget P (jsOr req.target "https://your-site.example/") = false →
      (getRoot P env req now).res.statusCode = 400) ∧
    (∀ t, req.target = some t → t ≠ "" → isAllowedTarget P t = false →
      (getRoot P env req now).res.statusCode = 400) ∧
    (getRoot P env req now).calls = [] ∧
    ((req.url = none ∨ ∃ t, req.url = some t ∧ isAllowedTarget P t = false) →
      (getScreenshot P env E req).res.statusCode = 400 ∧
      (getScreenshot P env E req).calls = []) ∧
    ((getScreenshot P env E req).calls ≠ [] →
      ∃ t, req.url = some t ∧ isAllowedTarget P t = true ∧
        ∀ u o, Call.goto u o ∈ (getScreenshot P env E req).calls → u = t) := by
  simp only [getRoot, getScreenshot, hgate]
  refine ⟨?_, ?_, rootHandler_calls P req now, ?_, ?_⟩
  · intro h
    rw [rootHandler_rejected P req now h]
  · intro t ht hne h
    have hb : (t == "") = false := by simpa using hne
    have hj : jsOr req.target "https://your-site.example/" = t := by
      simp only [jsOr, ht, hb, Bool.false_eq_true, ↓reduceIte]
    rw [rootHandler_rejected P req now (by rw [hj]; exact h)]
  · intro h
    have h2 : req.url = none ∨ ∃ t, req.url = some t ∧ (t = "" ∨ isAllowedTarget P t = false) := by
      rcases h with h | ⟨t, h, ht⟩
      · exact Or.inl h
      · exact Or.inr ⟨t, h, Or.inr ht⟩
    rw [screenshotHandler_rejected P E req h2]
    exact ⟨rfl, rfl⟩
  · intro hcalls
    cases hu : req.url with
    | none =>
      rw [screenshotHandler_rejected P E req (Or.inl hu)] at hcalls
      exact absurd rfl hcalls
    | some t =>
      by_cases hne : t = ""
      · rw [screenshotHandler_rejected P E req (Or.inr ⟨t, hu, Or.inl hne⟩)] at hcalls
        exact absurd rfl hcalls
      · cases ha : isAllowedTarget P t with
        | false =>
          rw [screenshotHandler_rejected P E req (Or.inr ⟨t, hu, Or.inr ha⟩)] at hcalls
          exact absurd rfl hcalls
        | true =>
          refine ⟨t, rfl, ha, ?_⟩
          intro u o hmem
          rw [screenshotHandler_accepted P E req t hu hne ha] at hmem
          simp only at hmem
          split at hmem
          · rw [List.mem_append] at hmem
            rcases hmem with hmem | hmem
            · exact renderSteps_goto E t u o hmem
            · simp at hmem
          · exact renderSteps_goto E t u o hmem

/-- Witness for `rejected_target_gets_400`: a target on a host outside the allow-list. -/
theorem rejected_target_gets_400_witness :
    basicAuth refPlatform ⟨none, none⟩ ⟨none, some "https://evil.example/", none⟩ = Gate.next ∧
    isAllowedTarget refPlatform "https://evil.example/" = false ∧
    (getRoot refPlatform ⟨none, none⟩ ⟨none, some "https://evil.example/", none⟩ 0).res.statusCode
      = 400 :=
  ⟨by decide, by decide,
    (rejected_target_gets_400 refPlatform ⟨none, none⟩ (okEngine [])
      ⟨none, some "https://evil.example/", none⟩ 0 (by decide)).2.1 "https://evil.example/" rfl
      (by decide) (by decide)⟩

/-- C2 (as stated) fails: the request `GET /?target=` passes the gate, its
`target` parameter is the empty string, which `isAllowedTarget` rejects, and
the response status is 200, not 400. -/
theorem empty_target_param_answered_200 :
    basicAuth refPlatform ⟨none, none⟩ ⟨none, some "", none⟩ = Gate.next ∧
    isAllowedTarget refPlatform "" = false ∧
    (getRoot refPlatform ⟨none, none⟩ ⟨none, some "", none⟩ 0).res.statusCode = 200 ∧
    (getRoot refPlatform ⟨none, none⟩ ⟨none, some "", none⟩ 0).res.statusCode ≠ 400 := by
  refine ⟨by decide, by decide, ?_, ?_⟩
  · rw [getRoot, show basicAuth refPlatform ⟨none, none⟩ ⟨none, some "", none⟩ = Gate.next by decide,
      rootHandler_accepted _ _ _ (by decide)]
  · rw [getRoot, show basicAuth refPlatform ⟨none, none⟩ ⟨none, some "", none⟩ = Gate.next by decide,
      rootHandler_accepted _ _ _ (by decide)]
    decide

/-! ## Theorems: page composer -/

theorem string_append_left_cancel (a b c : String) (h : a ++ b = a ++ c) : b = c := by
  have h2 := congrArg String.data h
  simp only [String.data_append] at h2
  exact String.ext (List.append_cancel_left h2)

theorem string_append_right_cancel (a b c : String) (h : a ++ c = b ++ c) : a = b := by
  have h2 := congrArg String.data h
  simp only [String.data_append] at h2
  exact String.ext (List.append_cancel_right h2)

theorem page_encoded_injective (a b : String) (now : Nat) (target : String)
    (h : page a now target = page b now target) : a = b := by
  simp only [page, String.append_assoc] at h
  exact string_append_right_cancel _ _ _ (string_append_left_cancel _ _ _ h)

theorem append_img_line (x : String) :
    ∃ a, x ++ "        <img id=\"shot\" src=\"/screenshot?url=" =
      a ++ "<img id=\"shot\" src=\"/screenshot?url=" := by
  refine ⟨x ++ "        ", ?_⟩
  rw [String.append_assoc]
  exact congrArg (fun y => x ++ y) (by decide)

theorem pageHead_ends_with_img : ∃ a, pageHead = a ++ "<img id=\"shot\" src=\"/screenshot?url=" := by
  unfold pageHead
  exact append_img_line _

theorem pageMid_eq :
    pageMid =
      "\" alt=\"screenshot\"/>" ++ ("\n      </div>\n      " ++ "<script>\n        const target = \"") := by
  decide

theorem pageTail_starts_with_quote : ∃ b, pageTail = "\";" ++ b := by
  unfold pageTail
  simp only [String.append_assoc]
  rw [show "\";\n" = "\";" ++ "\n" by decide, String.append_assoc]
  exact ⟨_, rfl⟩

theorem encodeURIComponent_default :
    encodeURIComponent "https://your-site.example/" = "https%3A%2F%2Fyour-site.example%2F" := by
  decide

/-- C9 (amended): for a request to `GET /` that passes the gate and has no
`target` parameter, on a runtime whose URL parser gives the default URL
`https://your-site.example/` the hostname `your-site.example`, the response
is status 200 and its body is the page for the default URL, whose image
source is `/screenshot?url=` followed by the percent-encoded default URL
`https%3A%2F%2Fyour-site.example%2F` and then `&_t=` and the timestamp. -/
theorem root_default_target_encoded (P : Platform) (env : Env) (req : Request) (now : Nat)
    (hgate : basicAuth P env req = Gate.next) (ht : req.target = none)
    (hparse : ∃ u, P.parseURL "https://your-site.example/" = some u ∧
      u.hostname = "your-site.example") :
    (getRoot P env req now).res.statusCode = 200 ∧
    (getRoot P env req now).res.body =
      some (.text (page "https%3A%2F%2Fyour-site.example%2F" now "https://your-site.example/")) ∧
    ∃ pre post, page "https%3A%2F%2Fyour-site.example%2F" now "https://your-site.example/" =
      pre ++ "<img id=\"shot\" src=\"/screenshot?url=" ++ "https%3A%2F%2Fyour-site.example%2F" ++
        "&_t=" ++ toString now ++ "\" alt=\"screenshot\"/>" ++ post := by
  obtain ⟨u, hu, hh⟩ := hparse
  have hj : jsOr req.target "https://your-site.example/" = "https://your-site.example/" := by
    simp only [jsOr, ht]
  have ha : isAllowedTarget P (jsOr req.target "https://your-site.example/") = true := by
    rw [hj]
    exact isAllowedTarget_of_parse P _ u hu (Or.inl hh)
  rw [getRoot, hgate, rootHandler_accepted P req now ha, hj, encodeURIComponent_default]
  refine ⟨rfl, rfl, ?_⟩
  obtain ⟨a, hhead⟩ := pageHead_ends_with_img
  refine ⟨a, "\n      </div>\n      " ++ "<script>\n        const target = \"" ++
    "https://your-site.example/" ++ pageTail, ?_⟩
  simp only [page, hhead, pageMid_eq, String.append_assoc]

/-- Witness for `root_default_target_encoded` on the reference platform. -/
theorem root_default_target_encoded_witness :
    (getRoot refPlatform ⟨none, none⟩ ⟨none, none, none⟩ 1700000000000).res.body =
      some (.text (page "https%3A%2F%2Fyour-site.example%2F" 1700000000000
        "https://your-site.example/")) :=
  (root_default_target_encoded refPlatform ⟨none, none⟩ ⟨none, none, none⟩ 1700000000000
    (by decide) rfl ⟨⟨"https:", "your-site.example", "", "/", "", ""⟩, by decide, rfl⟩).2.1

/-- C9 (as stated) fails: for the request `GET /` without parameters at
timestamp 0 the response is 200, but its body is not the page whose image
source holds the default URL character for character: the URL is
percent-encoded there. -/
theorem default_target_not_verbatim :
    basicAuth refPlatform ⟨none, none⟩ ⟨none, none, none⟩ = Gate.next ∧
    (getRoot refPlatform ⟨none, none⟩ ⟨none, none, none⟩ 0).res.statusCode = 200 ∧
    (getRoot refPlatform ⟨none, none⟩ ⟨none, none, none⟩ 0).res.body =
      some (.text (pageHead ++ "https%3A%2F%2Fyour-site.example%2F" ++ "&_t=" ++ "0" ++ pageMid ++
        "https://your-site.example/" ++ pageTail)) ∧
    (getRoot refPlatform ⟨none, none⟩ ⟨none, none, none⟩ 0).res.body ≠
      some (.text (pageHead ++ "https://your-site.example/" ++ "&_t=" ++ "0" ++ pageMid ++
        "https://your-site.example/" ++ pageTail)) := by
  have ha : isAllowedTarget refPlatform
      (jsOr (Request.mk none none none).target "https://your-site.example/") = true := by decide
  have hb : (getRoot refPlatform ⟨none, none⟩ ⟨none, none, none⟩ 0).res =
      ⟨200, [], some (.text (page "https%3A%2F%2Fyour-site.example%2F" 0
        "https://your-site.example/"))⟩ := by
    rw [getRoot, show basicAuth refPlatform ⟨none, none⟩ ⟨none, none, none⟩ = Gate.next by decide,
      rootHandler_accepted _ _ _ ha]
    exact congrArg (fun e => Res.mk 200 [] (some (.text (page e 0 "https://your-site.example/"))))
      encodeURIComponent_default
  refine ⟨by decide, ?_, ?_, ?_⟩
  · rw [hb]
  · rw [hb]
    rfl
  · rw [hb]
    intro h
    have h2 : page "https%3A%2F%2Fyour-site.example%2F" 0 "https://your-site.example/" =
        page "https://your-site.example/" 0 "https://your-site.example/" := by
      simpa using h
    exact absurd (page_encoded_injective _ _ _ _ h2) (by decide)

theorem page_script_split (encoded : String) (now : Nat) (target : String) :
    page encoded now target =
      (pageHead ++ encoded ++ "&_t=" ++ toString now ++
        "\" alt=\"screenshot\"/>\n      </div>\n      <script>\n        ") ++
      ("const target = " ++ ("\"" ++ (target ++ pageTail))) := by
  have hmid : pageMid =
      "\" alt=\"screenshot\"/>\n      </div>\n      <script>\n        " ++
        ("const target = " ++ "\"") := by decide
  simp only [page, hmid, String.append_assoc]

theorem scanLiteralBody_plain (lit rest : List Char)
    (h : ∀ c ∈ lit, (c.toNat == 34 || c.toNat == 10 || c.toNat == 13 || c.toNat == 92) = false) :
    scanLiteralBody false (lit ++ Char.ofNat 34 :: rest) = some (lit, rest) := by
  induction lit with
  | nil =>
    have hq : ((Char.ofNat 34).toNat == 34) = true := by decide
    simp only [List.nil_append, scanLiteralBody, hq, Bool.false_eq_true, ↓reduceIte]
  | cons c cs ih =>
    have hc := h c (List.mem_cons_self c cs)
    simp only [Bool.or_eq_false_iff] at hc
    obtain ⟨⟨⟨h1, h2⟩, h3⟩, h4⟩ := hc
    have ih2 := ih (fun d hd => h d (List.mem_cons_of_mem c hd))
    simp only [List.cons_append, scanLiteralBody, h1, h2, h3, h4, Bool.false_eq_true,
      ↓reduceIte, Bool.or_self]
    show Option.map _ (scanLiteralBody false (cs ++ Char.ofNat 34 :: rest)) = _
    rw [ih2]
    rfl

theorem scanStringLiteral_localhost (rest : List Char) :
    scanStringLiteral ("\"https://localhost/\"".data ++ rest) =
      some ("https://localhost/".data, rest) := by
  have hd : "\"https://localhost/\"".data =
      Char.ofNat 34 :: ("https://localhost/".data ++ [Char.ofNat 34]) := by decide
  rw [hd, List.cons_append, List.append_assoc, List.singleton_append]
  have hq : ((Char.ofNat 34).toNat == 34) = true := by decide
  simp only [scanStringLiteral, hq, ↓reduceIte]
  exact scanLiteralBody_plain _ rest (by decide)

/-- C10: for a request to `GET /` that passes the gate and whose effective
target is accepted, the page holds the raw target string between
`const target = "` and `";` in its script. For the target
`https://localhost/";alert(1);//`, accepted when the URL parser gives it the
hostname `localhost`, the string literal that follows `const target = ` is
`"https://localhost/"`, shorter than the target, and the script continues
with the rest of the target, `;alert(1);//`. -/
theorem target_raw_in_script (P : Platform) (env : Env) (req : Request) (now : Nat)
    (hgate : basicAuth P env req = Gate.next) :
    (isAllowedTarget P (jsOr req.target "https://your-site.example/") = true →
      (getRoot P env req now).res.body =
        some (.text (page (encodeURIComponent (jsOr req.target "https://your-site.example/")) now
          (jsOr req.target "https://your-site.example/"))) ∧
      ∃ pre post,
        page (encodeURIComponent (jsOr req.target "https://your-site.example/")) now
            (jsOr req.target "https://your-site.example/") =
          pre ++ "<script>\n        const target = \"" ++
            jsOr req.target "https://your-site.example/" ++ "\";" ++ post) ∧
    (req.target = some "https://localhost/\";alert(1);//" →
      (∃ u, P.parseURL "https://localhost/\";alert(1);//" = some u ∧ u.hostname = "localhost") →
      isAllowedTarget P "https://localhost/\";alert(1);//" = true ∧
      (∃ pre, (getRoot P env req now).res.body =
        some (.text (pre ++ ("const target = " ++
          ("\"https://localhost/\"" ++ (";alert(1);//" ++ pageTail)))))) ∧
      scanStringLiteral ("\"https://localhost/\"" ++ (";alert(1);//" ++ pageTail)).data =
        some ("https://localhost/".data, (";alert(1);//" ++ pageTail).data) ∧
      "https://localhost/".length < "https://localhost/\";alert(1);//".length) := by
  constructor
  · intro ha
    rw [getRoot, hgate, rootHandler_accepted P req now ha]
    refine ⟨rfl, ?_⟩
    obtain ⟨b, hb⟩ := pageTail_starts_with_quote
    refine ⟨pageHead ++ encodeURIComponent (jsOr req.target "https://your-site.example/") ++
      "&_t=" ++ toString now ++ "\" alt=\"screenshot\"/>\n      </div>\n      ", b, ?_⟩
    have hmid : pageMid =
        "\" alt=\"screenshot\"/>\n      </div>\n      " ++
          "<script>\n        const target = \"" := by decide
    simp only [page, hmid, hb, String.append_assoc]
  · intro ht ⟨u, hu, hh⟩
    have hj : jsOr req.target "https://your-site.example/" = "https://localhost/\";alert(1);//" := by
      rw [ht]
      decide
    have ha : isAllowedTarget P "https://localhost/\";alert(1);//" = true :=
      isAllowedTarget_of_parse P _ u hu (Or.inr hh)
    refine ⟨ha, ?_, ?_, by decide⟩
    · rw [getRoot, hgate, rootHandler_accepted P req now (by rw [hj]; exact ha), hj,
        page_script_split]
      refine ⟨pageHead ++ encodeURIComponent "https://localhost/\";alert(1);//" ++ "&_t=" ++
        toString now ++ "\" alt=\"screenshot\"/>\n      </div>\n      <script>\n        ", ?_⟩
      have hq : "\"" ++ ("https://localhost/\";alert(1);//" ++ pageTail) =
          "\"https://localhost/\"" ++ (";alert(1);//" ++ pageTail) := by
        rw [← String.append_assoc, ← String.append_assoc]
        exact congrArg (fun y => y ++ pageTail) (by decide)
      rw [hq]
    · rw [String.data_append]
      exact scanStringLiteral_localhost _

/-- Witness for `target_raw_in_script`: the reference platform accepts the
target `https://localhost/";alert(1);//`. -/
theorem target_raw_in_script_witness :
    basicAuth refPlatform ⟨none, none⟩ ⟨none, some "https://localhost/\";alert(1);//", none⟩ =
      Gate.next ∧
    isAllowedTarget refPlatform "https://localhost/\";alert(1);//" = true :=
  ⟨by decide,
    ((target_raw_in_script refPlatform ⟨none, none⟩
      ⟨none, some "https://localhost/\";alert(1);//", none⟩ 0 (by decide)).2 rfl
      ⟨⟨"https:", "localhost", "", "/\";alert(1);//", "", ""⟩, by decide, rfl⟩).1⟩

end Proxy
